import Mathlib

/-!
Verification of the EDIFACT ORDERS generator (`src/main.go`).

The repository holds two near-duplicate variants of the same generator in one
file:

* variant 1 (lines 1-1230): `EDISegment.String` with release-character
  escaping and a maximum segment length, `Address`/`EDIOrderItem`/`EDIOrder`
  validation, a pluggable `SegmentBuilder` (we embed the
  `DefaultSegmentBuilder`), context cancellation, and a streaming
  `Generate(ctx, order, writer)` that threads a running segment count;
* variant 2 (lines 1231-1810): a plain generator with no validation, no
  escaping (`EDISegment.String` is tag + "+" + join + "'"), `%v` numeric
  formatting, and trailer counts computed from the accumulated segment list
  (`createUNT`, `createUNZ`).

Strings are embedded as `List Char` (`Str`); Go's `len` on the ASCII
alphabet used by EDIFACT UNOA coincides with the character count.
Go `float64` fields are embedded as `ℚ`; the two formatting functions used
by the source (`strconv.FormatFloat(x, 'f', 2, 64)` and `fmt.Sprintf("%v")`,
the latter printing the shortest terminating decimal form) are embedded as
exact-decimal printers on `ℚ`, which agrees with the float functions on the
finite decimal values appearing in this domain.  `context.Context` is
embedded as a `Bool` that tells whether the context is already cancelled.
`time.Time` is embedded as a calendar record; its Go zero value is
year 1, January 1, 00:00.
-/

set_option maxRecDepth 100000

abbrev Str := List Char

/-- Digit character for a value below ten. -/
def digitChar (n : Nat) : Char :=
  match n with
  | 0 => '0' | 1 => '1' | 2 => '2' | 3 => '3' | 4 => '4'
  | 5 => '5' | 6 => '6' | 7 => '7' | 8 => '8' | _ => '9'

/-- Fuel-driven decimal printer for naturals (fuel bounds the digit count). -/
def natDigitsAux : Nat → Nat → Str
  | 0, _ => []
  | f + 1, n => if n < 10 then [digitChar n] else natDigitsAux f (n / 10) ++ [digitChar (n % 10)]

/-- Decimal string of a natural number, as `strconv.Itoa` renders it. -/
def natStr (n : Nat) : Str := natDigitsAux (n + 1) n

/-- Decimal string of an integer, as `strconv.Itoa` / `%d` render it. -/
def intStr (i : Int) : Str :=
  (if i < 0 then ['-'] else []) ++ natStr i.natAbs

/-- Exactly `k` decimal digits of `n` (low digits, leading zeros kept). -/
def padDigits : Nat → Nat → Str
  | 0, _ => []
  | k + 1, n => padDigits k (n / 10) ++ [digitChar (n % 10)]

/-- Two-digit zero-padded field, as Go's time layout "02"/"01"/"15"/"04". -/
def pad2 (n : Nat) : Str := padDigits 2 n

/-- Four-digit zero-padded field, as Go's time layout "2006". -/
def pad4 (n : Nat) : Str := padDigits 4 n

/-- Errors surfaced by the generator (`errors.New` values, `ValidationError`,
and the `fmt.Errorf("...: %w", err)` wrapping used by the source). -/
inductive GenErr
  | invalidSeparator
  | segmentTooLong
  | contextCancelled
  | fieldErr (field : String) (msg : String)
  | wrap (context : String) (e : GenErr)
deriving DecidableEq, Repr

/-- Abstract segment: tag plus ordered element strings (`EDISegment`). -/
structure EDISegment where
  tag : Str
  elements : List Str
deriving DecidableEq, Repr

/-- One `strings.ReplaceAll(s, string(special), string(rel) + string(special))`
pass for a single-character pattern. -/
def escapePass (special rel : Char) (s : Str) : Str :=
  s.flatMap fun c => if c = special then [rel, special] else [c]

/-- The escape loop body of variant 1's `EDISegment.String`: replace the
element separator, then the segment terminator, then the release character
itself, each by the release character followed by that character.  The third
pass runs over the output of the first two, exactly as in the source. -/
def escapeElem (sep term rel : Char) (s : Str) : Str :=
  let s1 := escapePass sep rel s
  let s2 := escapePass term rel s1
  s2.flatMap fun c => if c = rel then [rel, rel] else [c]

/-- The `result` expression of variant 1's `EDISegment.String`:
tag + separator + join(escaped elements, separator) + terminator. -/
def wireText (s : EDISegment) (sep term rel : Char) : Str :=
  s.tag ++ [sep] ++ (List.intercalate [sep] (s.elements.map (escapeElem sep term rel))) ++ [term]

/-- Maximum segment length constant of the source. -/
def MaxSegmentLength : Nat := 1000

/-- Variant 1's `EDISegment.String`: serialize, fail with `ErrSegmentTooLong`
when the wire text exceeds `MaxSegmentLength`. -/
def segString (s : EDISegment) (sep term rel : Char) : Except GenErr Str :=
  let result := wireText s sep term rel
  if MaxSegmentLength < result.length then .error .segmentTooLong else .ok result

/-- Modelled from the spec: the release-character-aware tokenizer of §8
("the serialized segment, when re-split using the same release-character-aware
tokenizer").  The repository itself contains no tokenizer; this definition
follows the spec's words: a release character makes the next character
literal, the element separator ends the current token, the segment terminator
ends the scan.  The first token is the segment tag. -/
def splitRelease (sep term rel : Char) : List Char → Bool → Str → List Str → List Str
  | [], _, cur, acc => acc ++ [cur]
  | c :: rest, true, cur, acc => splitRelease sep term rel rest false (cur ++ [c]) acc
  | c :: rest, false, cur, acc =>
    if c = rel then splitRelease sep term rel rest true cur acc
    else if c = term then acc ++ [cur]
    else if c = sep then splitRelease sep term rel rest false [] (acc ++ [cur])
    else splitRelease sep term rel rest false (cur ++ [c]) acc

/-- Tokenize a full wire line with the release-character-aware tokenizer. -/
def tokenizeWire (sep term rel : Char) (w : Str) : List Str :=
  splitRelease sep term rel w false [] []

example : "ab".data = ['a', 'b'] := by decide

example : escapeElem '+' '\'' '?' "a+b".data = "a??+b".data := by decide

example : tokenizeWire '+' '\'' '?' "FTX+a??+b'".data = ["FTX".data, "a?".data, "b".data] := by decide

/-- Embedding of `time.Time` at calendar precision (the generator only ever
formats year/month/day/hour/minute).  Go's zero `time.Time` is
year 1, January 1, 00:00. -/
structure GoTime where
  year : Nat
  month : Nat
  day : Nat
  hour : Nat
  minute : Nat
deriving DecidableEq, Repr

/-- Go's `time.Time.IsZero` (and the `!= (time.Time{})` comparison of
variant 2) on the embedded calendar record. -/
def GoTime.isZero (t : GoTime) : Bool :=
  t.year = 1 && t.month = 1 && t.day = 1 && t.hour = 0 && t.minute = 0

/-- `Format("060102")`: two-digit year, month, day. -/
def fmtYYMMDD (t : GoTime) : Str := pad2 (t.year % 100) ++ pad2 t.month ++ pad2 t.day

/-- `Format("1504")`: hour and minute. -/
def fmtHHMM (t : GoTime) : Str := pad2 t.hour ++ pad2 t.minute

/-- `Format("20060102")`: four-digit year, month, day. -/
def fmtCCYYMMDD (t : GoTime) : Str := pad4 t.year ++ pad2 t.month ++ pad2 t.day

/-- Round the fraction `n / d` (with `d` positive) to the nearest integer,
ties to even, as IEEE/`strconv` rounding behaves on the exact decimal values
of this domain. -/
def roundHalfEvenFrac (n d : Int) : Int :=
  let f := Int.fdiv n d
  let r2 := 2 * (n - f * d)
  if r2 < d then f
  else if d < r2 then f + 1
  else if f % 2 = 0 then f else f + 1

/-- Embedding of `strconv.FormatFloat(x, 'f', 2, 64)`: fixed-point text with
exactly two digits after the decimal mark. -/
def formatFloat2 (q : ℚ) : Str :=
  let m := roundHalfEvenFrac (100 * q.num) (q.den : Int)
  (if m < 0 then ['-'] else []) ++ natStr (m.natAbs / 100) ++ ['.'] ++ pad2 (m.natAbs % 100)

/-- Smallest number of decimal digits (up to the fuel bound) that makes the
fraction `n / d` an integer when scaled by a power of ten. -/
def decExpAux : Nat → Int → Int → Nat
  | 0, _, _ => 0
  | f + 1, n, d => if n % d = 0 then 0 else 1 + decExpAux f (10 * n) d

/-- Embedding of `fmt.Sprintf("%v", x)` on `float64` for the values of this
domain: the shortest terminating decimal form, with no fractional part and no
decimal mark when the value is an integer (Go prints `10`, `25.5`, `99.99`). -/
def goFormatV (q : ℚ) : Str :=
  let d : Int := (q.den : Int)
  let k := decExpAux 64 q.num d
  let m : Int := ((10 : Int) ^ k * q.num) / d
  (if m < 0 then ['-'] else []) ++ natStr (m.natAbs / 10 ^ k) ++
    (if k = 0 then [] else ['.'] ++ padDigits k (m.natAbs % 10 ^ k))

/-- Does a string end in a decimal mark followed by exactly two digits
(fixed-point text with two decimal places)? -/
def twoDecimalFixed (s : Str) : Bool :=
  match s.reverse with
  | b :: a :: p :: _ => a.isDigit && b.isDigit && p = '.'
  | _ => false

example : formatFloat2 10 = "10.00".data := by decide
example : formatFloat2 (mkRat 51 2) = "25.50".data := by decide
example : goFormatV 10 = "10".data := by decide
example : goFormatV (mkRat 51 2) = "25.5".data := by decide
example : goFormatV (mkRat 9999 100) = "99.99".data := by decide
example : twoDecimalFixed "25.50".data = true := by decide
example : twoDecimalFixed "10".data = false := by decide

/-- Party address record (`Address`). -/
structure Address where
  name : Str
  lines : List Str
  id : Str
  idType : Str
deriving DecidableEq, Repr

/-- Order line item (`EDIOrderItem`; variant 2's `OrderLineItem` has the same
fields).  Go `float64` fields are embedded as `ℚ`, `int` as `Int`. -/
structure EDIOrderItem where
  lineNumber : Int
  buyerItemCode : Str
  supplierItemCode : Str
  quantity : ℚ
  unitPrice : ℚ
  unitOfMeasure : Str
  description : Str
  taxRate : ℚ
  amount : ℚ
  deliveryDate : GoTime
deriving DecidableEq, Repr

/-- The order aggregate (`EDIOrder`; identical field list in both variants). -/
structure EDIOrder where
  interchangeSenderID : Str
  interchangeReceiverID : Str
  interchangeControlRef : Str
  messageRefNumber : Str
  orderNumber : Str
  orderDate : GoTime
  currency : Str
  currencyQualifier : Str
  buyer : Address
  seller : Address
  delivery : Address
  invoice : Address
  deliveryDate : GoTime
  deliveryDateQualifier : Str
  deliveryTerms : Str
  deliveryTermsCode : Str
  paymentTerms : Str
  paymentTermsCode : Str
  transportMode : Str
  transportModeCode : Str
  items : List EDIOrderItem
  totalAmount : ℚ
  totalLines : Int
  totalQuantity : ℚ
  testIndicator : Int
  messageVersion : Str
  messageRelease : Str
  responsibleAgency : Str
  associationCode : Str
  syntaxIdentifier : Str
  syntaxVersion : Str
deriving DecidableEq, Repr

/-- The indexed loop over address lines in `Address.Validate`, rejecting any
line longer than 35 characters. -/
def checkAddrLines : Nat → List Str → Option GenErr
  | _, [] => none
  | i, l :: ls =>
    if 35 < l.length then
      some (.fieldErr ("Address.Lines[" ++ toString i ++ "]") "address line exceeds 35 characters")
    else checkAddrLines (i + 1) ls

/-- `Address.Validate`: name required, at least one line, each line at most
35 characters (first failure wins). -/
def Address.validate (a : Address) : Option GenErr :=
  if a.name = [] then some (.fieldErr "Address.Name" "name is required")
  else if a.lines = [] then some (.fieldErr "Address.Lines" "at least one address line is required")
  else checkAddrLines 0 a.lines

/-- `EDIOrderItem.Validate`: positive line number, buyer item code present and
at most 35 characters, positive quantity, non-negative unit price. -/
def EDIOrderItem.validate (i : EDIOrderItem) : Option GenErr :=
  if i.lineNumber ≤ 0 then some (.fieldErr "EDIOrderItem.LineNumber" "line number must be positive")
  else if i.buyerItemCode = [] then some (.fieldErr "EDIOrderItem.BuyerItemCode" "buyer item code is required")
  else if 35 < i.buyerItemCode.length then some (.fieldErr "EDIOrderItem.BuyerItemCode" "buyer item code exceeds 35 characters")
  else if i.quantity ≤ 0 then some (.fieldErr "EDIOrderItem.Quantity" "quantity must be positive")
  else if i.unitPrice < 0 then some (.fieldErr "EDIOrderItem.UnitPrice" "unit price cannot be negative")
  else none

/-- The indexed item-validation loop of `EDIOrder.Validate`, wrapping each
failure as `item at index i validation failed`. -/
def checkItems : Nat → List EDIOrderItem → Option GenErr
  | _, [] => none
  | i, it :: its =>
    match it.validate with
    | some e => some (.wrap ("item at index " ++ toString i ++ " validation failed") e)
    | none => checkItems (i + 1) its

/-- First failing check of a sequential early-return chain: the Go pattern
`if cond { return err }` repeated, embedded as the first `some` of the
ordered check list. -/
def firstErr : List (Option GenErr) → Option GenErr
  | [] => none
  | some e :: _ => some e
  | none :: rest => firstErr rest

/-- `EDIOrder.Validate`, check for check in source order (first failure wins):
required identifier fields with length bounds, non-zero order date, buyer and
seller addresses, delivery address only when its name is present (the invoice
address is never inspected), non-empty bounded item list, each item, and
finally the declared total-line count against the item count. -/
def EDIOrder.validate (o : EDIOrder) : Option GenErr :=
  firstErr
    [if o.interchangeSenderID = [] then some (.fieldErr "EDIOrder.InterchangeSenderID" "interchange sender ID is required") else none,
     if 35 < o.interchangeSenderID.length then some (.fieldErr "EDIOrder.InterchangeSenderID" "interchange sender ID exceeds 35 characters") else none,
     if o.interchangeReceiverID = [] then some (.fieldErr "EDIOrder.InterchangeReceiverID" "interchange receiver ID is required") else none,
     if 35 < o.interchangeReceiverID.length then some (.fieldErr "EDIOrder.InterchangeReceiverID" "interchange receiver ID exceeds 35 characters") else none,
     if o.interchangeControlRef = [] then some (.fieldErr "EDIOrder.InterchangeControlRef" "interchange control reference is required") else none,
     if o.messageRefNumber = [] then some (.fieldErr "EDIOrder.MessageRefNumber" "message reference number is required") else none,
     if o.orderNumber = [] then some (.fieldErr "EDIOrder.OrderNumber" "order number is required") else none,
     if 35 < o.orderNumber.length then some (.fieldErr "EDIOrder.OrderNumber" "order number exceeds 35 characters") else none,
     if o.orderDate.isZero then some (.fieldErr "EDIOrder.OrderDate" "order date is required") else none,
     (o.buyer.validate).map (.wrap "buyer validation failed"),
     (o.seller.validate).map (.wrap "seller validation failed"),
     (if o.delivery.name = [] then none else o.delivery.validate).map (.wrap "delivery validation failed"),
     if o.items = [] then some (.fieldErr "EDIOrder.Items" "at least one item is required") else none,
     if 999999 < o.items.length then some (.fieldErr "EDIOrder.Items" "too many items") else none,
     checkItems 0 o.items,
     if o.totalLines ≠ (o.items.length : Int) then some (.fieldErr "EDIOrder.TotalLines" "total lines does not match number of items") else none]

/-- Generator configuration (`EDIFACTOrderGenerator`).  The source stores the
five special characters as one-character strings and always inspects their
first byte; we embed them as characters.  The `sync.Pool` and the pluggable
builder reference play no role in the embedded behavior: the pool is a
string-builder cache and the claims concern the default builder. -/
structure EDIFACTOrderGenerator where
  segmentTerminator : Char
  elementSeparator : Char
  componentSeparator : Char
  decimalMark : Char
  releaseCharacter : Char
deriving DecidableEq, Repr

/-- `validateSeparators`: the terminator, element separator, component
separator and release character are put in a set; fewer than four distinct
characters is an `ErrInvalidSeparator`.  The decimal mark is not checked. -/
def validateSeparators (g : EDIFACTOrderGenerator) : Option GenErr :=
  let chars : List Char :=
    [g.segmentTerminator, g.elementSeparator, g.componentSeparator, g.releaseCharacter]
  if chars.dedup.length = 4 then none else some .invalidSeparator

/-- The default separator configuration built by `NewEDIFACTOrderGenerator`. -/
def defaultGenerator : EDIFACTOrderGenerator :=
  { segmentTerminator := '\''
    elementSeparator := '+'
    componentSeparator := ':'
    decimalMark := '.'
    releaseCharacter := '?' }

/-- `NewEDIFACTOrderGenerator`: construct with the default characters and
validate them before returning the generator. -/
def newEDIFACTOrderGenerator : Except GenErr EDIFACTOrderGenerator :=
  match validateSeparators defaultGenerator with
  | some e => .error e
  | none => .ok defaultGenerator

/-- `WithCustomSeparators`: the receiver's five characters are overwritten
first and validated afterwards.  The first component is the state of the
receiver after the call; the second is the returned error, if any. -/
def withCustomSeparators (g : EDIFACTOrderGenerator) (terminator element component decimal release : Char) :
    EDIFACTOrderGenerator × Option GenErr :=
  let g' : EDIFACTOrderGenerator :=
    { segmentTerminator := terminator
      elementSeparator := element
      componentSeparator := component
      decimalMark := decimal
      releaseCharacter := release }
  (g', validateSeparators g')

/-- `DefaultSegmentBuilder.BuildUNB`.  Every builder first checks the context;
the embedded context is the flag `c` telling whether it is cancelled. -/
def buildUNB (c : Bool) (o : EDIOrder) : Except GenErr EDISegment :=
  if c then .error .contextCancelled else
  let date := fmtYYMMDD o.orderDate
  let time := fmtHHMM o.orderDate
  let syntaxID := if o.syntaxIdentifier = [] then "UNOA".data else o.syntaxIdentifier
  let syntaxVersion := if o.syntaxVersion = [] then "2".data else o.syntaxVersion
  let testIndicator := if o.testIndicator = 1 then "1".data else []
  .ok { tag := "UNB".data
        elements := [syntaxID ++ [':'] ++ syntaxVersion,
                     o.interchangeSenderID, o.interchangeReceiverID,
                     date, time, o.interchangeControlRef, [], [], testIndicator] }

/-- `DefaultSegmentBuilder.BuildUNH` with the four message defaults. -/
def buildUNH (c : Bool) (o : EDIOrder) : Except GenErr EDISegment :=
  if c then .error .contextCancelled else
  let messageVersion := if o.messageVersion = [] then "D".data else o.messageVersion
  let messageRelease := if o.messageRelease = [] then "96A".data else o.messageRelease
  let responsibleAgency := if o.responsibleAgency = [] then "UN".data else o.responsibleAgency
  let associationCode := if o.associationCode = [] then "EAN008".data else o.associationCode
  .ok { tag := "UNH".data
        elements := [o.messageRefNumber,
                     "ORDERS:".data ++ messageVersion ++ [':'] ++ messageRelease ++ [':'] ++
                       responsibleAgency ++ [':'] ++ associationCode] }

/-- `DefaultSegmentBuilder.BuildBGM`: order code 220, order number, code 9. -/
def buildBGM (c : Bool) (o : EDIOrder) : Except GenErr EDISegment :=
  if c then .error .contextCancelled else
  .ok { tag := "BGM".data, elements := ["220".data, o.orderNumber, "9".data] }

/-- `DefaultSegmentBuilder.BuildDTM`: qualifier, CCYYMMDD date, format 102. -/
def buildDTM (c : Bool) (date : GoTime) (qualifier : Str) : Except GenErr EDISegment :=
  if c then .error .contextCancelled else
  .ok { tag := "DTM".data, elements := [qualifier ++ [':'] ++ fmtCCYYMMDD date ++ ":102".data] }

/-- `DefaultSegmentBuilder.BuildCUX` with the currency qualifier default. -/
def buildCUX (c : Bool) (o : EDIOrder) : Except GenErr EDISegment :=
  if c then .error .contextCancelled else
  let qualifier := if o.currencyQualifier = [] then "2".data else o.currencyQualifier
  .ok { tag := "CUX".data, elements := [qualifier ++ [':'] ++ o.currency ++ ":9".data] }

/-- `DefaultSegmentBuilder.BuildNAD`: party qualifier, optional id with
id-type default 9, address lines joined by the component separator, blank,
name. -/
def buildNAD (g : EDIFACTOrderGenerator) (c : Bool) (partyQualifier : Str) (a : Address) :
    Except GenErr EDISegment :=
  if c then .error .contextCancelled else
  let idType := if a.idType = [] then "9".data else a.idType
  let idElem := if a.id = [] then [] else a.id ++ "::".data ++ idType
  let addrStr := List.intercalate [g.componentSeparator] a.lines
  .ok { tag := "NAD".data, elements := [partyQualifier, idElem, addrStr, [], a.name] }

/-- `DefaultSegmentBuilder.BuildTOD`: coded variant wins over free text. -/
def buildTOD (c : Bool) (o : EDIOrder) : Except GenErr EDISegment :=
  if c then .error .contextCancelled else
  let trailing := if o.deliveryTermsCode = [] then "::".data ++ o.deliveryTerms
                  else "::".data ++ o.deliveryTermsCode
  .ok { tag := "TOD".data, elements := ["3".data, [], trailing] }

/-- `DefaultSegmentBuilder.BuildPAT`: coded variant wins over free text. -/
def buildPAT (c : Bool) (o : EDIOrder) : Except GenErr EDISegment :=
  if c then .error .contextCancelled else
  let trailing := if o.paymentTermsCode = [] then o.paymentTerms else o.paymentTermsCode
  .ok { tag := "PAT".data, elements := ["1".data, [], trailing] }

/-- `DefaultSegmentBuilder.BuildTDT`: coded variant wins over free text. -/
def buildTDT (c : Bool) (o : EDIOrder) : Except GenErr EDISegment :=
  if c then .error .contextCancelled else
  let trailing := if o.transportModeCode = [] then o.transportMode else o.transportModeCode
  .ok { tag := "TDT".data, elements := ["20".data, "1".data, [], trailing] }

/-- `DefaultSegmentBuilder.BuildLIN`: line number, blank, buyer code with EN
scheme, blank, supplier code with SA scheme or blank. -/
def buildLIN (c : Bool) (it : EDIOrderItem) : Except GenErr EDISegment :=
  if c then .error .contextCancelled else
  let supplier := if it.supplierItemCode = [] then [] else it.supplierItemCode ++ ":SA".data
  .ok { tag := "LIN".data
        elements := [intStr it.lineNumber, [], it.buyerItemCode ++ ":EN".data, [], supplier] }

/-- `DefaultSegmentBuilder.BuildIMD`: free-text description. -/
def buildIMD (c : Bool) (it : EDIOrderItem) : Except GenErr EDISegment :=
  if c then .error .contextCancelled else
  .ok { tag := "IMD".data, elements := ["F".data, [], [], ":::".data ++ it.description] }

/-- `DefaultSegmentBuilder.BuildQTY`: quantity type 21, two-decimal quantity,
unit of measure defaulting to PCE. -/
def buildQTY (c : Bool) (it : EDIOrderItem) : Except GenErr EDISegment :=
  if c then .error .contextCancelled else
  let uom := if it.unitOfMeasure = [] then "PCE".data else it.unitOfMeasure
  .ok { tag := "QTY".data
        elements := ["21:".data ++ formatFloat2 it.quantity ++ [':'] ++ uom] }

/-- `DefaultSegmentBuilder.BuildPRI`: price type AAA, two-decimal price. -/
def buildPRI (c : Bool) (it : EDIOrderItem) : Except GenErr EDISegment :=
  if c then .error .contextCancelled else
  .ok { tag := "PRI".data, elements := ["AAA:".data ++ formatFloat2 it.unitPrice] }

/-- `DefaultSegmentBuilder.BuildMOA`: line amount code 203, two decimals. -/
def buildMOA (c : Bool) (it : EDIOrderItem) : Except GenErr EDISegment :=
  if c then .error .contextCancelled else
  .ok { tag := "MOA".data, elements := ["203:".data ++ formatFloat2 it.amount] }

/-- `DefaultSegmentBuilder.BuildCNT`: control qualifier 2, total line count. -/
def buildCNT (c : Bool) (o : EDIOrder) : Except GenErr EDISegment :=
  if c then .error .contextCancelled else
  .ok { tag := "CNT".data, elements := ["2:".data ++ intStr o.totalLines] }

/-- `DefaultSegmentBuilder.BuildMOATotal`: total amount code 128. -/
def buildMOATotal (c : Bool) (o : EDIOrder) : Except GenErr EDISegment :=
  if c then .error .contextCancelled else
  .ok { tag := "MOA".data, elements := ["128:".data ++ formatFloat2 o.totalAmount] }

/-- `DefaultSegmentBuilder.BuildUNT`: the running segment count and the
message reference number. -/
def buildUNT (c : Bool) (o : EDIOrder) (segmentCount : Nat) : Except GenErr EDISegment :=
  if c then .error .contextCancelled else
  .ok { tag := "UNT".data, elements := [natStr segmentCount, o.messageRefNumber] }

/-- `DefaultSegmentBuilder.BuildUNZ`: the message count and the interchange
control reference. -/
def buildUNZ (c : Bool) (o : EDIOrder) (messageCount : Nat) : Except GenErr EDISegment :=
  if c then .error .contextCancelled else
  .ok { tag := "UNZ".data, elements := [natStr messageCount, o.interchangeControlRef] }

/-- Assembly state of `Generate`: the (segment, wire line) pairs written to
the output so far, the running segment counter, the `foundUNH` flag, and the
error that aborted the run, if any.  The writer is a `strings.Builder` in the
driver, so writes cannot fail; each wire line carries its trailing newline
exactly as `writeSegment` emits it. -/
structure GenSt where
  written : List (EDISegment × Str)
  count : Nat
  foundUNH : Bool
  err : Option GenErr
deriving DecidableEq, Repr

/-- The starting state of one `Generate` invocation. -/
def initSt : GenSt := { written := [], count := 0, foundUNH := false, err := none }

/-- `writeSegment`: serialize with the generator's separators and append the
line (with trailing newline) to the output.  After an earlier abort the state
is frozen, matching the early `return` in the source. -/
def writeSeg (g : EDIFACTOrderGenerator) (seg : EDISegment) (st : GenSt) : GenSt :=
  if st.err.isSome then st else
  match segString seg g.elementSeparator g.segmentTerminator g.releaseCharacter with
  | .error e => { st with err := some e }
  | .ok s => { st with written := st.written ++ [(seg, s ++ ['\n'])] }

/-- The `if foundUNH then segmentCount++` increment that follows each write
between the message header and the message trailer. -/
def bumpCount (st : GenSt) : GenSt :=
  if st.err.isSome then st else
  if st.foundUNH then { st with count := st.count + 1 } else st

/-- Run a builder result, aborting the assembly on a builder error. -/
def buildStep (b : Except GenErr EDISegment) (k : EDISegment → GenSt → GenSt) (st : GenSt) : GenSt :=
  if st.err.isSome then st else
  match b with
  | .error e => { st with err := some e }
  | .ok seg => k seg st

/-- One counted emission: build, write, increment the counter. -/
def emitB (g : EDIFACTOrderGenerator) (b : Except GenErr EDISegment) (st : GenSt) : GenSt :=
  buildStep b (fun seg s => bumpCount (writeSeg g seg s)) st

/-- A conditionally emitted segment: one `if condition` block of `Generate`
guarding an emission. -/
def emitIf (cond : Prop) [Decidable cond] (f : GenSt → GenSt) (st : GenSt) : GenSt :=
  if cond then f st else st

/-- The per-item block of the `Generate` loop: the cancellation check, then
LIN, IMD, QTY, PRI, MOA, and the optional per-line delivery-date DTM. -/
def genItem (g : EDIFACTOrderGenerator) (c : Bool) (it : EDIOrderItem) (st : GenSt) : GenSt :=
  if st.err.isSome then st else
  if c then { st with err := some .contextCancelled } else
  let st := emitB g (buildLIN c it) st
  let st := emitB g (buildIMD c it) st
  let st := emitB g (buildQTY c it) st
  let st := emitB g (buildPRI c it) st
  let st := emitB g (buildMOA c it) st
  emitIf (¬ it.deliveryDate.isZero) (emitB g (buildDTM c it.deliveryDate "64".data)) st

/-- The item loop of `Generate`. -/
def genItems (g : EDIFACTOrderGenerator) (c : Bool) : List EDIOrderItem → GenSt → GenSt
  | [], st => st
  | it :: its, st => genItems g c its (genItem g c it st)

/-- The counted body of `Generate`, from BGM up to and including the total
MOA: the unconditional BGM and document-date DTM, the conditional delivery
DTM / CUX / four NAD parties / TOD / PAT / TDT, the item loop, then UNS,
CNT and the total MOA. -/
def genBody (g : EDIFACTOrderGenerator) (c : Bool) (o : EDIOrder) (st : GenSt) : GenSt :=
  let deliveryQualifier := if o.deliveryDateQualifier = [] then "2".data else o.deliveryDateQualifier
  let st := emitB g (buildBGM c o) st
  let st := emitB g (buildDTM c o.orderDate "137".data) st
  let st := emitIf (¬ o.deliveryDate.isZero) (emitB g (buildDTM c o.deliveryDate deliveryQualifier)) st
  let st := emitIf (o.currency ≠ []) (emitB g (buildCUX c o)) st
  let st := emitIf (o.buyer.name ≠ []) (emitB g (buildNAD g c "BY".data o.buyer)) st
  let st := emitIf (o.seller.name ≠ []) (emitB g (buildNAD g c "SE".data o.seller)) st
  let st := emitIf (o.delivery.name ≠ []) (emitB g (buildNAD g c "DP".data o.delivery)) st
  let st := emitIf (o.invoice.name ≠ []) (emitB g (buildNAD g c "IV".data o.invoice)) st
  let st := emitIf (o.deliveryTerms ≠ [] ∨ o.deliveryTermsCode ≠ []) (emitB g (buildTOD c o)) st
  let st := emitIf (o.paymentTerms ≠ [] ∨ o.paymentTermsCode ≠ []) (emitB g (buildPAT c o)) st
  let st := emitIf (o.transportMode ≠ [] ∨ o.transportModeCode ≠ []) (emitB g (buildTDT c o)) st
  let st := genItems g c o.items st
  let st := bumpCount (writeSeg g { tag := "UNS".data, elements := ["S".data] } st)
  let st := emitB g (buildCNT c o) st
  emitB g (buildMOATotal c o) st

/-- The envelope-opening phase of `Generate`: UNB is written before the
counter starts; after a successful UNH write, `foundUNH` is set and the
counter starts at 1. -/
def genHeader (g : EDIFACTOrderGenerator) (c : Bool) (o : EDIOrder) : GenSt :=
  let st := buildStep (buildUNB c o) (fun seg s => writeSeg g seg s) initSt
  buildStep (buildUNH c o)
    (fun seg s =>
      let s := writeSeg g seg s
      if s.err.isSome then s else { s with foundUNH := true, count := 1 }) st

/-- Variant 1's `Generate`: cancellation check, validation (wrapping the
validation error), UNB and UNH, the counted body, then UNT built from the
running counter and UNZ built from the constant message count 1 (neither
trailer is counted). -/
def generate (g : EDIFACTOrderGenerator) (c : Bool) (o : EDIOrder) : GenSt :=
  if c then { initSt with err := some .contextCancelled } else
  match o.validate with
  | some e => { initSt with err := some (.wrap "order validation failed" e) }
  | none =>
    let st := genHeader g c o
    let st := genBody g c o st
    let st := buildStep (buildUNT c o st.count) (fun seg s => writeSeg g seg s) st
    buildStep (buildUNZ c o 1) (fun seg s => writeSeg g seg s) st

/-- Variant 2's `EDISegment.String`: tag + "+" + join(elements, "+") + "'",
with no escaping and no length check. -/
def v2SegString (s : EDISegment) : Str :=
  s.tag ++ ['+'] ++ List.intercalate ['+'] s.elements ++ ['\'']

/-- Variant 2's `createUNB` (same field derivation as variant 1). -/
def createUNB (o : EDIOrder) : EDISegment :=
  let date := fmtYYMMDD o.orderDate
  let time := fmtHHMM o.orderDate
  let syntaxID := if o.syntaxIdentifier = [] then "UNOA".data else o.syntaxIdentifier
  let syntaxVersion := if o.syntaxVersion = [] then "2".data else o.syntaxVersion
  let testIndicator := if o.testIndicator = 1 then "1".data else []
  { tag := "UNB".data
    elements := [syntaxID ++ [':'] ++ syntaxVersion,
                 o.interchangeSenderID, o.interchangeReceiverID,
                 date, time, o.interchangeControlRef, [], [], testIndicator] }

/-- Variant 2's `createUNH`. -/
def createUNH (o : EDIOrder) : EDISegment :=
  let messageVersion := if o.messageVersion = [] then "D".data else o.messageVersion
  let messageRelease := if o.messageRelease = [] then "96A".data else o.messageRelease
  let responsibleAgency := if o.responsibleAgency = [] then "UN".data else o.responsibleAgency
  let associationCode := if o.associationCode = [] then "EAN008".data else o.associationCode
  { tag := "UNH".data
    elements := [o.messageRefNumber,
                 "ORDERS:".data ++ messageVersion ++ [':'] ++ messageRelease ++ [':'] ++
                   responsibleAgency ++ [':'] ++ associationCode] }

/-- Variant 2's `createBGM`. -/
def createBGM (o : EDIOrder) : EDISegment :=
  { tag := "BGM".data, elements := ["220".data, o.orderNumber, "9".data] }

/-- Variant 2's `createDTM`. -/
def createDTM (date : GoTime) (qualifier : Str) : EDISegment :=
  { tag := "DTM".data, elements := [qualifier ++ [':'] ++ fmtCCYYMMDD date ++ ":102".data] }

/-- Variant 2's `createCUX`. -/
def createCUX (o : EDIOrder) : EDISegment :=
  let qualifier := if o.currencyQualifier = [] then "2".data else o.currencyQualifier
  { tag := "CUX".data, elements := [qualifier ++ [':'] ++ o.currency ++ ":9".data] }

/-- Variant 2's `createNAD`. -/
def createNAD (g : EDIFACTOrderGenerator) (partyQualifier : Str) (a : Address) : EDISegment :=
  let idType := if a.idType = [] then "9".data else a.idType
  let idElem := if a.id = [] then [] else a.id ++ "::".data ++ idType
  let addrStr := List.intercalate [g.componentSeparator] a.lines
  { tag := "NAD".data, elements := [partyQualifier, idElem, addrStr, [], a.name] }

/-- Variant 2's `createTOD`. -/
def createTOD (o : EDIOrder) : EDISegment :=
  let trailing := if o.deliveryTermsCode = [] then "::".data ++ o.deliveryTerms
                  else "::".data ++ o.deliveryTermsCode
  { tag := "TOD".data, elements := ["3".data, [], trailing] }

/-- Variant 2's `createPAT`. -/
def createPAT (o : EDIOrder) : EDISegment :=
  let trailing := if o.paymentTermsCode = [] then o.paymentTerms else o.paymentTermsCode
  { tag := "PAT".data, elements := ["1".data, [], trailing] }

/-- Variant 2's `createTDT`. -/
def createTDT (o : EDIOrder) : EDISegment :=
  let trailing := if o.transportModeCode = [] then o.transportMode else o.transportModeCode
  { tag := "TDT".data, elements := ["20".data, "1".data, [], trailing] }

/-- Variant 2's `createLIN`. -/
def createLIN (it : EDIOrderItem) : EDISegment :=
  let supplier := if it.supplierItemCode = [] then [] else it.supplierItemCode ++ ":SA".data
  { tag := "LIN".data
    elements := [intStr it.lineNumber, [], it.buyerItemCode ++ ":EN".data, [], supplier] }

/-- Variant 2's `createIMD`. -/
def createIMD (it : EDIOrderItem) : EDISegment :=
  { tag := "IMD".data, elements := ["F".data, [], [], ":::".data ++ it.description] }

/-- Variant 2's `createQTY`: `fmt.Sprintf("21:%v:%s", item.Quantity, uom)`,
so the quantity is rendered in Go's default shortest form, not with a fixed
number of decimal places. -/
def createQTY (it : EDIOrderItem) : EDISegment :=
  let uom := if it.unitOfMeasure = [] then "PCE".data else it.unitOfMeasure
  { tag := "QTY".data, elements := ["21:".data ++ goFormatV it.quantity ++ [':'] ++ uom] }

/-- Variant 2's `createPRI`: `fmt.Sprintf("AAA:%v", item.UnitPrice)`. -/
def createPRI (it : EDIOrderItem) : EDISegment :=
  { tag := "PRI".data, elements := ["AAA:".data ++ goFormatV it.unitPrice] }

/-- Variant 2's `createMOA`: `fmt.Sprintf("203:%v", item.Amount)`. -/
def createMOA (it : EDIOrderItem) : EDISegment :=
  { tag := "MOA".data, elements := ["203:".data ++ goFormatV it.amount] }

/-- Variant 2's `createCNT`: `fmt.Sprintf("2:%v", order.TotalLines)`. -/
def createCNT (o : EDIOrder) : EDISegment :=
  { tag := "CNT".data, elements := ["2:".data ++ intStr o.totalLines] }

/-- Variant 2's `createMOATotal`: `fmt.Sprintf("128:%v", order.TotalAmount)`. -/
def createMOATotal (o : EDIOrder) : EDISegment :=
  { tag := "MOA".data, elements := ["128:".data ++ goFormatV o.totalAmount] }

/-- The counting loop of variant 2's `createUNT`: start at zero, reset to one
at UNH, stop at UNT, otherwise increment. -/
def untCount : List EDISegment → Nat → Nat
  | [], n => n
  | s :: rest, n =>
    if s.tag = "UNH".data then untCount rest 1
    else if s.tag = "UNT".data then n
    else untCount rest (n + 1)

/-- Variant 2's `createUNT`, applied to the segments accumulated so far. -/
def createUNT (o : EDIOrder) (segments : List EDISegment) : EDISegment :=
  { tag := "UNT".data, elements := [natStr (untCount segments 0), o.messageRefNumber] }

/-- The counting loop of variant 2's `createUNZ`: `messageCount` starts at 1
and is incremented for every UNH segment found in the accumulated list. -/
def unzCount (segments : List EDISegment) : Nat :=
  segments.foldl (fun n s => if s.tag = "UNH".data then n + 1 else n) 1

/-- Variant 2's `createUNZ`, applied to the segments accumulated so far
(which at the call site already include the UNT segment). -/
def createUNZ (o : EDIOrder) (segments : List EDISegment) : EDISegment :=
  { tag := "UNZ".data, elements := [natStr (unzCount segments), o.interchangeControlRef] }

/-- Variant 2's `Generate`, segment-list part: the same emission order and
presence predicates as variant 1, with no validation and no cancellation;
`createUNT` sees the list up to the total MOA, `createUNZ` additionally sees
the appended UNT. -/
def v2GenerateSegments (g : EDIFACTOrderGenerator) (o : EDIOrder) : List EDISegment :=
  let segs := [createUNB o, createUNH o, createBGM o, createDTM o.orderDate "137".data]
  let segs :=
    if o.deliveryDate.isZero then segs
    else
      let qualifier := if o.deliveryDateQualifier = [] then "2".data else o.deliveryDateQualifier
      segs ++ [createDTM o.deliveryDate qualifier]
  let segs := if o.currency = [] then segs else segs ++ [createCUX o]
  let segs := if o.buyer.name = [] then segs else segs ++ [createNAD g "BY".data o.buyer]
  let segs := if o.seller.name = [] then segs else segs ++ [createNAD g "SE".data o.seller]
  let segs := if o.delivery.name = [] then segs else segs ++ [createNAD g "DP".data o.delivery]
  let segs := if o.invoice.name = [] then segs else segs ++ [createNAD g "IV".data o.invoice]
  let segs := if o.deliveryTerms = [] ∧ o.deliveryTermsCode = [] then segs else segs ++ [createTOD o]
  let segs := if o.paymentTerms = [] ∧ o.paymentTermsCode = [] then segs else segs ++ [createPAT o]
  let segs := if o.transportMode = [] ∧ o.transportModeCode = [] then segs else segs ++ [createTDT o]
  let segs := segs ++ o.items.flatMap (fun it =>
    [createLIN it, createIMD it, createQTY it, createPRI it, createMOA it] ++
      (if it.deliveryDate.isZero then [] else [createDTM it.deliveryDate "64".data]))
  let segs := segs ++ [{ tag := "UNS".data, elements := ["S".data] }, createCNT o, createMOATotal o]
  let segs := segs ++ [createUNT o segs]
  segs ++ [createUNZ o segs]

/-- Variant 2's `Generate`, rendered text: one line per segment, each line
the unescaped wire text followed by a newline. -/
def v2Generate (g : EDIFACTOrderGenerator) (o : EDIOrder) : Str :=
  (v2GenerateSegments g o).flatMap fun s => v2SegString s ++ ['\n']

/-- The zero `time.Time`. -/
def zeroTime : GoTime := { year := 1, month := 1, day := 1, hour := 0, minute := 0 }

/-- The sample order of the source's `main` (with a fixed order date in place
of `time.Now()`). -/
def order0 : EDIOrder :=
  { interchangeSenderID := "SENDERID".data
    interchangeReceiverID := "RECEIVERID".data
    interchangeControlRef := "12345".data
    messageRefNumber := "12345".data
    orderNumber := "PO-2024-001".data
    orderDate := { year := 2024, month := 3, day := 15, hour := 10, minute := 30 }
    currency := "USD".data
    currencyQualifier := "2".data
    buyer := { name := "Acme Corporation".data
               lines := ["123 Main St".data, "Suite 100".data, "New York".data, "NY 10001".data]
               id := "BUYER001".data
               idType := "9".data }
    seller := { name := "Supplier Inc".data
                lines := ["456 Supply Ave".data, "Industrial Park".data, "Chicago".data, "IL 60601".data]
                id := "SUP001".data
                idType := "9".data }
    delivery := { name := "Acme Warehouse".data
                  lines := ["789 Distribution Blvd".data, "Warehouse 5".data, "Newark".data, "NJ 07101".data]
                  id := []
                  idType := [] }
    invoice := { name := [], lines := [], id := [], idType := [] }
    deliveryDate := { year := 2024, month := 3, day := 22, hour := 10, minute := 30 }
    deliveryDateQualifier := []
    deliveryTerms := "CFR".data
    deliveryTermsCode := []
    paymentTerms := "Net 30".data
    paymentTermsCode := []
    transportMode := []
    transportModeCode := []
    items :=
      [{ lineNumber := 1
         buyerItemCode := "ITEM001".data
         supplierItemCode := "SUP-001".data
         quantity := 10
         unitPrice := mkRat 51 2
         unitOfMeasure := "PCE".data
         description := "Widget Type A".data
         taxRate := 10
         amount := 255
         deliveryDate := zeroTime },
       { lineNumber := 2
         buyerItemCode := "ITEM002".data
         supplierItemCode := "SUP-002".data
         quantity := 5
         unitPrice := mkRat 9999 100
         unitOfMeasure := "PCE".data
         description := "Gadget Pro".data
         taxRate := 10
         amount := mkRat 49995 100
         deliveryDate := zeroTime }]
    totalAmount := mkRat 75495 100
    totalLines := 2
    totalQuantity := 15
    testIndicator := 1
    messageVersion := "D".data
    messageRelease := "96A".data
    responsibleAgency := "UN".data
    associationCode := "EAN008".data
    syntaxIdentifier := "UNOA".data
    syntaxVersion := "2".data }

example : order0.validate = none := by decide

example : (generate defaultGenerator false order0).err = none := by decide

example : (generate defaultGenerator false order0).written.length = 26 := by decide

example : (generate defaultGenerator false order0).count = 23 := by decide

/-- No message or interchange trailer has been written yet: every segment in
the output so far is a non-trailer segment. -/
def NoTrailer (st : GenSt) : Prop :=
  ∀ p ∈ st.written, p.1.tag ≠ "UNT".data ∧ p.1.tag ≠ "UNZ".data

/-- The counting invariant of `Generate` between the message header and the
message trailer: on the non-aborted path, `foundUNH` is set, the running
counter is one less than the number of written segments (UNB is written
before the counter starts, UNH itself counts as 1), and the segment at
index 1 is the message header. -/
def Counting (st : GenSt) : Prop :=
  st.err = none →
    st.foundUNH = true ∧ st.count + 1 = st.written.length ∧ 2 ≤ st.written.length ∧
    (st.written[1]?).map (fun p => p.1.tag) = some "UNH".data

theorem emitB_frozen (g : EDIFACTOrderGenerator) (b : Except GenErr EDISegment) (st : GenSt)
    (h : st.err.isSome) : emitB g b st = st := by
  simp [emitB, buildStep, h]

theorem bumpCount_written (st : GenSt) : (bumpCount st).written = st.written := by
  unfold bumpCount
  split
  · rfl
  · split <;> rfl

theorem writeBump_counting (g : EDIFACTOrderGenerator) (seg : EDISegment) (st : GenSt)
    (h : Counting st) : Counting (bumpCount (writeSeg g seg st)) := by
  cases he : st.err with
  | some e =>
    intro hnone
    simp [writeSeg, bumpCount, he] at hnone
  | none =>
    cases hs : segString seg g.elementSeparator g.segmentTerminator g.releaseCharacter with
    | error e =>
      intro hnone
      simp [writeSeg, bumpCount, he, hs] at hnone
    | ok s =>
      obtain ⟨hf, hc, hl, hg⟩ := h he
      have hst : bumpCount (writeSeg g seg st) =
          { written := st.written ++ [(seg, s ++ ['\n'])], count := st.count + 1,
            foundUNH := true, err := none } := by
        simp [writeSeg, bumpCount, he, hs, hf]
      rw [hst]
      intro _
      refine ⟨rfl, ?_, ?_, ?_⟩
      · simp only [List.length_append, List.length_cons, List.length_nil]
        omega
      · simp only [List.length_append, List.length_cons, List.length_nil]
        omega
      · show (st.written ++ [(seg, s ++ ['\n'])])[1]?.map (fun p => p.1.tag) = some "UNH".data
        rw [List.getElem?_append_left (by omega)]
        exact hg

theorem writeBump_noTrailer (g : EDIFACTOrderGenerator) (seg : EDISegment) (st : GenSt)
    (hseg : seg.tag ≠ "UNT".data ∧ seg.tag ≠ "UNZ".data)
    (h : NoTrailer st) : NoTrailer (bumpCount (writeSeg g seg st)) := by
  intro p hp
  rw [bumpCount_written] at hp
  cases he : st.err with
  | some e =>
    simp [writeSeg, he] at hp
    exact h p hp
  | none =>
    cases hs : segString seg g.elementSeparator g.segmentTerminator g.releaseCharacter with
    | error e =>
      simp [writeSeg, he, hs] at hp
      exact h p hp
    | ok s =>
      simp [writeSeg, he, hs] at hp
      rcases hp with hp | hp
      · exact h p hp
      · subst hp
        exact hseg

theorem emitB_counting (g : EDIFACTOrderGenerator) (b : Except GenErr EDISegment) (st : GenSt)
    (h : Counting st) : Counting (emitB g b st) := by
  cases he : st.err with
  | some e =>
    rw [emitB_frozen g b st (by simp [he])]
    exact h
  | none =>
    cases b with
    | error e =>
      intro hnone
      simp [emitB, buildStep, he] at hnone
    | ok seg =>
      simpa [emitB, buildStep, he] using writeBump_counting g seg st h

theorem emitB_noTrailer (g : EDIFACTOrderGenerator) (b : Except GenErr EDISegment) (st : GenSt)
    (hb : ∀ s, b = .ok s → s.tag ≠ "UNT".data ∧ s.tag ≠ "UNZ".data)
    (h : NoTrailer st) : NoTrailer (emitB g b st) := by
  cases he : st.err with
  | some e =>
    rw [emitB_frozen g b st (by simp [he])]
    exact h
  | none =>
    cases b with
    | error e =>
      intro p hp
      simp [emitB, buildStep, he] at hp
      exact h p hp
    | ok seg =>
      simpa [emitB, buildStep, he] using writeBump_noTrailer g seg st (hb seg rfl) h

theorem emitIf_counting (cond : Prop) [Decidable cond] (f : GenSt → GenSt) (st : GenSt)
    (hf : ∀ s, Counting s → Counting (f s)) (h : Counting st) : Counting (emitIf cond f st) := by
  unfold emitIf
  split
  · exact hf st h
  · exact h

theorem emitIf_noTrailer (cond : Prop) [Decidable cond] (f : GenSt → GenSt) (st : GenSt)
    (hf : ∀ s, NoTrailer s → NoTrailer (f s)) (h : NoTrailer st) : NoTrailer (emitIf cond f st) := by
  unfold emitIf
  split
  · exact hf st h
  · exact h

theorem genItem_counting (g : EDIFACTOrderGenerator) (c : Bool) (it : EDIOrderItem) (st : GenSt)
    (h : Counting st) : Counting (genItem g c it st) := by
  unfold genItem
  cases he : st.err with
  | some e =>
    simp [he]
    exact h
  | none =>
    simp [he]
    cases c with
    | true =>
      intro hnone
      simp at hnone
    | false =>
      simp only [Bool.false_eq_true, if_false]
      apply emitIf_counting _ _ _ (fun s hs => emitB_counting _ _ _ hs)
      exact emitB_counting _ _ _ (emitB_counting _ _ _ (emitB_counting _ _ _
        (emitB_counting _ _ _ (emitB_counting _ _ _ h))))

theorem genItems_counting (g : EDIFACTOrderGenerator) (c : Bool) (its : List EDIOrderItem)
    (st : GenSt) (h : Counting st) : Counting (genItems g c its st) := by
  induction its generalizing st with
  | nil => exact h
  | cons it its ih => exact ih _ (genItem_counting g c it st h)

theorem genBody_counting (g : EDIFACTOrderGenerator) (c : Bool) (o : EDIOrder) (st : GenSt)
    (h : Counting st) : Counting (genBody g c o st) := by
  unfold genBody
  apply emitB_counting
  apply emitB_counting
  apply writeBump_counting
  apply genItems_counting
  apply emitIf_counting _ _ _ (fun s hs => emitB_counting _ _ _ hs)
  apply emitIf_counting _ _ _ (fun s hs => emitB_counting _ _ _ hs)
  apply emitIf_counting _ _ _ (fun s hs => emitB_counting _ _ _ hs)
  apply emitIf_counting _ _ _ (fun s hs => emitB_counting _ _ _ hs)
  apply emitIf_counting _ _ _ (fun s hs => emitB_counting _ _ _ hs)
  apply emitIf_counting _ _ _ (fun s hs => emitB_counting _ _ _ hs)
  apply emitIf_counting _ _ _ (fun s hs => emitB_counting _ _ _ hs)
  apply emitIf_counting _ _ _ (fun s hs => emitB_counting _ _ _ hs)
  apply emitIf_counting _ _ _ (fun s hs => emitB_counting _ _ _ hs)
  apply emitB_counting
  apply emitB_counting
  exact h

theorem buildBGM_tag (c : Bool) (o : EDIOrder) (s : EDISegment)
    (h : buildBGM c o = .ok s) : s.tag = "BGM".data := by
  cases c <;> simp [buildBGM] at h
  rw [← h]

theorem buildDTM_tag (c : Bool) (d : GoTime) (q : Str) (s : EDISegment)
    (h : buildDTM c d q = .ok s) : s.tag = "DTM".data := by
  cases c <;> simp [buildDTM] at h
  rw [← h]

theorem buildCUX_tag (c : Bool) (o : EDIOrder) (s : EDISegment)
    (h : buildCUX c o = .ok s) : s.tag = "CUX".data := by
  cases c <;> simp [buildCUX] at h
  rw [← h]

theorem buildNAD_tag (g : EDIFACTOrderGenerator) (c : Bool) (q : Str) (a : Address)
    (s : EDISegment) (h : buildNAD g c q a = .ok s) : s.tag = "NAD".data := by
  cases c <;> simp [buildNAD] at h
  rw [← h]

theorem buildTOD_tag (c : Bool) (o : EDIOrder) (s : EDISegment)
    (h : buildTOD c o = .ok s) : s.tag = "TOD".data := by
  cases c <;> simp [buildTOD] at h
  rw [← h]

theorem buildPAT_tag (c : Bool) (o : EDIOrder) (s : EDISegment)
    (h : buildPAT c o = .ok s) : s.tag = "PAT".data := by
  cases c <;> simp [buildPAT] at h
  rw [← h]

theorem buildTDT_tag (c : Bool) (o : EDIOrder) (s : EDISegment)
    (h : buildTDT c o = .ok s) : s.tag = "TDT".data := by
  cases c <;> simp [buildTDT] at h
  rw [← h]

theorem buildLIN_tag (c : Bool) (it : EDIOrderItem) (s : EDISegment)
    (h : buildLIN c it = .ok s) : s.tag = "LIN".data := by
  cases c <;> simp [buildLIN] at h
  rw [← h]

theorem buildIMD_tag (c : Bool) (it : EDIOrderItem) (s : EDISegment)
    (h : buildIMD c it = .ok s) : s.tag = "IMD".data := by
  cases c <;> simp [buildIMD] at h
  rw [← h]

theorem buildQTY_tag (c : Bool) (it : EDIOrderItem) (s : EDISegment)
    (h : buildQTY c it = .ok s) : s.tag = "QTY".data := by
  cases c <;> simp [buildQTY] at h
  rw [← h]

theorem buildPRI_tag (c : Bool) (it : EDIOrderItem) (s : EDISegment)
    (h : buildPRI c it = .ok s) : s.tag = "PRI".data := by
  cases c <;> simp [buildPRI] at h
  rw [← h]

theorem buildMOA_tag (c : Bool) (it : EDIOrderItem) (s : EDISegment)
    (h : buildMOA c it = .ok s) : s.tag = "MOA".data := by
  cases c <;> simp [buildMOA] at h
  rw [← h]

theorem buildCNT_tag (c : Bool) (o : EDIOrder) (s : EDISegment)
    (h : buildCNT c o = .ok s) : s.tag = "CNT".data := by
  cases c <;> simp [buildCNT] at h
  rw [← h]

theorem buildMOATotal_tag (c : Bool) (o : EDIOrder) (s : EDISegment)
    (h : buildMOATotal c o = .ok s) : s.tag = "MOA".data := by
  cases c <;> simp [buildMOATotal] at h
  rw [← h]

theorem genItem_noTrailer (g : EDIFACTOrderGenerator) (c : Bool) (it : EDIOrderItem) (st : GenSt)
    (h : NoTrailer st) : NoTrailer (genItem g c it st) := by
  unfold genItem
  cases he : st.err with
  | some e =>
    simp [he]
    exact h
  | none =>
    simp [he]
    cases c with
    | true =>
      intro p hp
      simp at hp
      exact h p hp
    | false =>
      simp only [Bool.false_eq_true, if_false]
      apply emitIf_noTrailer _ _ _
        (fun s hs => emitB_noTrailer _ _ _
          (fun t ht => by rw [buildDTM_tag _ _ _ _ ht]; exact ⟨by decide, by decide⟩) hs)
      apply emitB_noTrailer _ _ _
        (fun t ht => by rw [buildMOA_tag _ _ _ ht]; exact ⟨by decide, by decide⟩)
      apply emitB_noTrailer _ _ _
        (fun t ht => by rw [buildPRI_tag _ _ _ ht]; exact ⟨by decide, by decide⟩)
      apply emitB_noTrailer _ _ _
        (fun t ht => by rw [buildQTY_tag _ _ _ ht]; exact ⟨by decide, by decide⟩)
      apply emitB_noTrailer _ _ _
        (fun t ht => by rw [buildIMD_tag _ _ _ ht]; exact ⟨by decide, by decide⟩)
      apply emitB_noTrailer _ _ _
        (fun t ht => by rw [buildLIN_tag _ _ _ ht]; exact ⟨by decide, by decide⟩)
      exact h

theorem genItems_noTrailer (g : EDIFACTOrderGenerator) (c : Bool) (its : List EDIOrderItem)
    (st : GenSt) (h : NoTrailer st) : NoTrailer (genItems g c its st) := by
  induction its generalizing st with
  | nil => exact h
  | cons it its ih => exact ih _ (genItem_noTrailer g c it st h)

theorem genBody_noTrailer (g : EDIFACTOrderGenerator) (c : Bool) (o : EDIOrder) (st : GenSt)
    (h : NoTrailer st) : NoTrailer (genBody g c o st) := by
  unfold genBody
  apply emitB_noTrailer _ _ _
    (fun t ht => by rw [buildMOATotal_tag _ _ _ ht]; exact ⟨by decide, by decide⟩)
  apply emitB_noTrailer _ _ _
    (fun t ht => by rw [buildCNT_tag _ _ _ ht]; exact ⟨by decide, by decide⟩)
  apply writeBump_noTrailer _ _ _ ⟨by decide, by decide⟩
  apply genItems_noTrailer
  apply emitIf_noTrailer _ _ _
    (fun s hs => emitB_noTrailer _ _ _
      (fun t ht => by rw [buildTDT_tag _ _ _ ht]; exact ⟨by decide, by decide⟩) hs)
  apply emitIf_noTrailer _ _ _
    (fun s hs => emitB_noTrailer _ _ _
      (fun t ht => by rw [buildPAT_tag _ _ _ ht]; exact ⟨by decide, by decide⟩) hs)
  apply emitIf_noTrailer _ _ _
    (fun s hs => emitB_noTrailer _ _ _
      (fun t ht => by rw [buildTOD_tag _ _ _ ht]; exact ⟨by decide, by decide⟩) hs)
  apply emitIf_noTrailer _ _ _
    (fun s hs => emitB_noTrailer _ _ _
      (fun t ht => by rw [buildNAD_tag _ _ _ _ _ ht]; exact ⟨by decide, by decide⟩) hs)
  apply emitIf_noTrailer _ _ _
    (fun s hs => emitB_noTrailer _ _ _
      (fun t ht => by rw [buildNAD_tag _ _ _ _ _ ht]; exact ⟨by decide, by decide⟩) hs)
  apply emitIf_noTrailer _ _ _
    (fun s hs => emitB_noTrailer _ _ _
      (fun t ht => by rw [buildNAD_tag _ _ _ _ _ ht]; exact ⟨by decide, by decide⟩) hs)
  apply emitIf_noTrailer _ _ _
    (fun s hs => emitB_noTrailer _ _ _
      (fun t ht => by rw [buildNAD_tag _ _ _ _ _ ht]; exact ⟨by decide, by decide⟩) hs)
  apply emitIf_noTrailer _ _ _
    (fun s hs => emitB_noTrailer _ _ _
      (fun t ht => by rw [buildCUX_tag _ _ _ ht]; exact ⟨by decide, by decide⟩) hs)
  apply emitIf_noTrailer _ _ _
    (fun s hs => emitB_noTrailer _ _ _
      (fun t ht => by rw [buildDTM_tag _ _ _ _ ht]; exact ⟨by decide, by decide⟩) hs)
  apply emitB_noTrailer _ _ _
    (fun t ht => by rw [buildDTM_tag _ _ _ _ ht]; exact ⟨by decide, by decide⟩)
  apply emitB_noTrailer _ _ _
    (fun t ht => by rw [buildBGM_tag _ _ _ ht]; exact ⟨by decide, by decide⟩)
  exact h

theorem writeSeg_cases (g : EDIFACTOrderGenerator) (seg : EDISegment) (st : GenSt)
    (he : st.err = none) :
    (∃ e, writeSeg g seg st =
      { written := st.written, count := st.count, foundUNH := st.foundUNH, err := some e }) ∨
    (∃ w, writeSeg g seg st =
      { written := st.written ++ [(seg, w)], count := st.count, foundUNH := st.foundUNH,
        err := none }) := by
  unfold writeSeg
  cases hs : segString seg g.elementSeparator g.segmentTerminator g.releaseCharacter with
  | error e => exact Or.inl ⟨e, by simp [he]⟩
  | ok w => exact Or.inr ⟨w ++ ['\n'], by simp [he]⟩

theorem buildStep_frozen (b : Except GenErr EDISegment) (k : EDISegment → GenSt → GenSt)
    (st : GenSt) (h : st.err.isSome) : buildStep b k st = st := by
  simp [buildStep, h]

theorem unhStep_inv (g : EDIFACTOrderGenerator) (b : EDISegment) (S : GenSt)
    (hbtag : b.tag = "UNH".data) (hS : S.err = none) (hSw : S.written.length = 1)
    (hN : NoTrailer S) :
    Counting (buildStep (Except.ok b)
      (fun seg s =>
        let s := writeSeg g seg s
        if s.err.isSome then s else { s with foundUNH := true, count := 1 }) S) ∧
    NoTrailer (buildStep (Except.ok b)
      (fun seg s =>
        let s := writeSeg g seg s
        if s.err.isSome then s else { s with foundUNH := true, count := 1 }) S) := by
  have hred : buildStep (Except.ok b)
      (fun seg s =>
        let s := writeSeg g seg s
        if s.err.isSome then s else { s with foundUNH := true, count := 1 }) S =
      (let s := writeSeg g b S
       if s.err.isSome then s else { s with foundUNH := true, count := 1 }) := by
    simp [buildStep, hS]
  rw [hred]
  rcases writeSeg_cases g b S hS with ⟨e, hw⟩ | ⟨w, hw⟩
  · rw [hw]
    simp only [Option.isSome_some, if_true]
    constructor
    · intro hnone
      simp at hnone
    · intro p hp
      exact hN p hp
  · rw [hw]
    simp only [Option.isSome_none, Bool.false_eq_true, if_false]
    constructor
    · intro _
      refine ⟨rfl, ?_, ?_, ?_⟩
      · simp [hSw]
      · simp [hSw]
      · show (S.written ++ [(b, w)])[1]?.map (fun p => p.1.tag) = some "UNH".data
        rw [show (1 : Nat) = S.written.length from hSw.symm, List.getElem?_concat_length]
        simp [hbtag]
    · intro p hp
      simp at hp
      rcases hp with hp | hp
      · exact hN p hp
      · subst hp
        rw [hbtag]
        exact ⟨by decide, by decide⟩

theorem genHeader_inv (g : EDIFACTOrderGenerator) (o : EDIOrder) :
    Counting (genHeader g false o) ∧ NoTrailer (genHeader g false o) := by
  obtain ⟨unb, hunb, hunbtag⟩ :
      ∃ s, buildUNB false o = .ok s ∧ s.tag = "UNB".data := ⟨_, rfl, rfl⟩
  obtain ⟨unh, hunh, hunhtag⟩ :
      ∃ s, buildUNH false o = .ok s ∧ s.tag = "UNH".data := ⟨_, rfl, rfl⟩
  unfold genHeader
  rw [hunb, hunh]
  have hstep1 : buildStep (Except.ok unb) (fun seg s => writeSeg g seg s) initSt =
      writeSeg g unb initSt := by
    simp [buildStep, initSt]
  rw [hstep1]
  rcases writeSeg_cases g unb initSt rfl with ⟨e, hw⟩ | ⟨w, hw⟩
  · rw [hw]
    rw [buildStep_frozen _ _ _ (by simp)]
    constructor
    · intro hnone
      simp at hnone
    · intro p hp
      simp [initSt] at hp
  · rw [hw]
    apply unhStep_inv g unh _ hunhtag rfl (by simp [initSt])
    intro p hp
    simp [initSt] at hp
    subst hp
    rw [hunbtag]
    exact ⟨by decide, by decide⟩

/-- Shape of a successful assembly: at least four segments; the message
header UNH at index 1; the message trailer UNT in the next-to-last position,
its first element the decimal rendering of the number of segments from UNH
(inclusive) up to but not including UNT (all written segments except UNB,
UNT and UNZ, that is `length - 3`); and the interchange trailer UNZ last. -/
def SuccessShape (st : GenSt) : Prop :=
  4 ≤ st.written.length ∧
  (st.written[1]?).map (fun p => p.1.tag) = some "UNH".data ∧
  (st.written[st.written.length - 2]?).map (fun p => p.1.tag) = some "UNT".data ∧
  (st.written[st.written.length - 2]?).map (fun p => p.1.elements.head?) =
    some (some (natStr (st.written.length - 3))) ∧
  (st.written[st.written.length - 1]?).map (fun p => p.1.tag) = some "UNZ".data

theorem generate_shape (g : EDIFACTOrderGenerator) (o : EDIOrder) :
    ((generate g false o).err = none → SuccessShape (generate g false o)) ∧
    ((generate g false o).err.isSome →
      ∀ p ∈ (generate g false o).written, p.1.tag ≠ "UNZ".data) := by
  obtain ⟨hC, hN⟩ := genHeader_inv g o
  have hCB := genBody_counting g false o _ hC
  have hNB := genBody_noTrailer g false o _ hN
  unfold generate
  simp only [Bool.false_eq_true, if_false]
  cases hv : o.validate with
  | some e =>
    constructor
    · intro hnone
      simp [initSt] at hnone
    · intro _ p hp
      simp [initSt] at hp
  | none =>
    generalize hB : genBody g false o (genHeader g false o) = B at hCB hNB ⊢
    cases herr : B.err with
    | some e =>
      rw [buildStep_frozen (buildUNT false o B.count) (fun seg s => writeSeg g seg s) B
        (by simp [herr])]
      rw [buildStep_frozen (buildUNZ false o 1) (fun seg s => writeSeg g seg s) B
        (by simp [herr])]
      constructor
      · intro hnone
        rw [herr] at hnone
        cases hnone
      · intro _ p hp
        exact (hNB p hp).2
    | none =>
      obtain ⟨hf, hcnt, hlen, hg1⟩ := hCB herr
      obtain ⟨unt, hunt, hunttag, huntelems⟩ :
          ∃ s, buildUNT false o B.count = .ok s ∧ s.tag = "UNT".data ∧
            s.elements = [natStr B.count, o.messageRefNumber] := ⟨_, rfl, rfl, rfl⟩
      obtain ⟨unz, hunz, hunztag⟩ :
          ∃ s, buildUNZ false o 1 = .ok s ∧ s.tag = "UNZ".data := ⟨_, rfl, rfl⟩
      rw [hunt, hunz]
      have h1 : buildStep (Except.ok unt) (fun seg s => writeSeg g seg s) B =
          writeSeg g unt B := by
        simp [buildStep, herr]
      rw [h1]
      rcases writeSeg_cases g unt B herr with ⟨e, hw⟩ | ⟨w, hw⟩
      · rw [hw]
        rw [buildStep_frozen _ _ _ (by simp)]
        constructor
        · intro hnone
          simp at hnone
        · intro _ p hp
          exact (hNB p hp).2
      · rw [hw]
        have h2 : buildStep (Except.ok unz) (fun seg s => writeSeg g seg s)
            { written := B.written ++ [(unt, w)], count := B.count, foundUNH := B.foundUNH,
              err := none } =
            writeSeg g unz
            { written := B.written ++ [(unt, w)], count := B.count, foundUNH := B.foundUNH,
              err := none } := by
          simp [buildStep]
        rw [h2]
        rcases writeSeg_cases g unz
            { written := B.written ++ [(unt, w)], count := B.count, foundUNH := B.foundUNH,
              err := none } rfl with ⟨e2, hw2⟩ | ⟨w2, hw2⟩
        · rw [hw2]
          constructor
          · intro hnone
            simp at hnone
          · intro _ p hp
            simp only [List.mem_append, List.mem_singleton] at hp
            rcases hp with hp | hp
            · exact (hNB p hp).2
            · subst hp
              rw [hunttag]
              decide
        · rw [hw2]
          constructor
          · intro _
            have hidx2 : ((B.written ++ [(unt, w)]) ++ [(unz, w2)]).length - 2 =
                B.written.length := by
              simp
            have hidx3 : ((B.written ++ [(unt, w)]) ++ [(unz, w2)]).length - 3 = B.count := by
              simp only [List.length_append, List.length_cons, List.length_nil]
              omega
            have hidx1 : ((B.written ++ [(unt, w)]) ++ [(unz, w2)]).length - 1 =
                (B.written ++ [(unt, w)]).length := by
              simp
            refine ⟨?_, ?_, ?_, ?_, ?_⟩
            · show 4 ≤ ((B.written ++ [(unt, w)]) ++ [(unz, w2)]).length
              simp only [List.length_append, List.length_cons, List.length_nil]
              omega
            · show ((B.written ++ [(unt, w)]) ++ [(unz, w2)])[1]?.map (fun p => p.1.tag) =
                some "UNH".data
              rw [List.getElem?_append_left (by
                  simp only [List.length_append, List.length_cons, List.length_nil]; omega),
                List.getElem?_append_left (by omega)]
              exact hg1
            · show ((B.written ++ [(unt, w)]) ++
                  [(unz, w2)])[((B.written ++ [(unt, w)]) ++ [(unz, w2)]).length - 2]?.map
                  (fun p => p.1.tag) = some "UNT".data
              rw [hidx2, List.getElem?_append_left (by simp), List.getElem?_concat_length]
              simp [hunttag]
            · show ((B.written ++ [(unt, w)]) ++
                  [(unz, w2)])[((B.written ++ [(unt, w)]) ++ [(unz, w2)]).length - 2]?.map
                  (fun p => p.1.elements.head?) =
                  some (some (natStr (((B.written ++ [(unt, w)]) ++ [(unz, w2)]).length - 3)))
              rw [hidx2, hidx3, List.getElem?_append_left (by simp),
                List.getElem?_concat_length]
              simp [huntelems]
            · show ((B.written ++ [(unt, w)]) ++
                  [(unz, w2)])[((B.written ++ [(unt, w)]) ++ [(unz, w2)]).length - 1]?.map
                  (fun p => p.1.tag) = some "UNZ".data
              rw [hidx1, List.getElem?_concat_length]
              simp [hunztag]
          · intro habs
            simp at habs

theorem firstErr_eq_none (l : List (Option GenErr)) :
    firstErr l = none ↔ ∀ x ∈ l, x = none := by
  induction l with
  | nil => simp [firstErr]
  | cons x rest ih =>
    cases x with
    | some e => simp [firstErr]
    | none => simp [firstErr, ih]

theorem validate_none_facts (o : EDIOrder) (h : o.validate = none) :
    o.buyer.validate = none ∧ o.seller.validate = none ∧
      (if o.delivery.name = [] then none else o.delivery.validate) = none ∧
      o.totalLines = (o.items.length : Int) := by
  rw [EDIOrder.validate, firstErr_eq_none] at h
  refine ⟨?_, ?_, ?_, ?_⟩
  · have hb := h _ (by simp : (o.buyer.validate).map (.wrap "buyer validation failed") ∈ _)
    exact Option.map_eq_none'.mp hb
  · have hs := h _ (by simp : (o.seller.validate).map (.wrap "seller validation failed") ∈ _)
    exact Option.map_eq_none'.mp hs
  · have hd := h _ (by simp :
      (if o.delivery.name = [] then none else o.delivery.validate).map
        (.wrap "delivery validation failed") ∈ _)
    exact Option.map_eq_none'.mp hd
  · have ht := h _ (by simp :
      (if o.totalLines ≠ (o.items.length : Int) then
        some (.fieldErr "EDIOrder.TotalLines" "total lines does not match number of items")
      else none) ∈ _)
    by_cases hc : o.totalLines = (o.items.length : Int)
    · exact hc
    · rw [if_pos hc] at ht
      exact Option.noConfusion ht

theorem generate_validate_err (g : EDIFACTOrderGenerator) (o : EDIOrder)
    (h : (o.validate).isSome) :
    (generate g false o).written = [] ∧ (generate g false o).err.isSome := by
  obtain ⟨e, he⟩ := Option.isSome_iff_exists.mp h
  unfold generate
  simp [he, initSt]

theorem dedup4 (a b c d : Char) :
    ([a, b, c, d] : List Char).dedup.length = 4 ↔
      (a ≠ b ∧ a ≠ c ∧ a ≠ d ∧ b ≠ c ∧ b ≠ d ∧ c ≠ d) := by
  constructor
  · intro h
    have hsub := List.dedup_sublist ([a, b, c, d] : List Char)
    have heq := List.Sublist.eq_of_length hsub (by simpa using h)
    have hnd : ([a, b, c, d] : List Char).Nodup := by
      rw [← heq]
      exact List.nodup_dedup _
    simp only [List.nodup_cons, List.mem_cons, List.mem_singleton, List.not_mem_nil,
      not_or, List.nodup_nil, and_true] at hnd
    tauto
  · intro h
    have hnd : ([a, b, c, d] : List Char).Nodup := by
      simp only [List.nodup_cons, List.mem_cons, List.mem_singleton, List.not_mem_nil,
        not_or, List.nodup_nil, and_true]
      tauto
    rw [List.dedup_eq_self.mpr hnd]
    rfl

/-- A too-long segment for the length-limit witness. -/
def bigSeg : EDISegment := { tag := "XXX".data, elements := [List.replicate 1200 'A'] }

/-- A line item with an integral quantity, for the formatting claims. -/
def item10 : EDIOrderItem :=
  { lineNumber := 1
    buyerItemCode := "ITEM001".data
    supplierItemCode := []
    quantity := 10
    unitPrice := mkRat 51 2
    unitOfMeasure := "PCE".data
    description := []
    taxRate := 0
    amount := 255
    deliveryDate := zeroTime }

/-- An otherwise-valid order whose buyer name makes the buyer NAD segment
exceed the maximum segment length (address names are not length-checked by
validation). -/
def longNameOrder : EDIOrder :=
  { order0 with buyer := { name := List.replicate 1010 'A'
                           lines := ["123 Main St".data]
                           id := []
                           idType := [] } }

/-- An order rejected by validation (empty order number). -/
def badValidationOrder : EDIOrder := { order0 with orderNumber := [] }

/-- An otherwise-valid order whose declared total-line count disagrees with
the item count. -/
def orderMismatch : EDIOrder := { order0 with totalLines := 3 }

/-- An otherwise-valid order whose invoice address has a name but no address
lines (an address that `Address.Validate` would reject). -/
def invoiceOrder : EDIOrder :=
  { order0 with invoice := { name := "Bad Invoice".data, lines := [], id := [], idType := [] } }

example : (generate defaultGenerator false longNameOrder).err = some .segmentTooLong := by decide
example : (generate defaultGenerator false longNameOrder).written.length = 6 := by decide
example : invoiceOrder.validate = none := by decide

theorem digitChar_isDigit (n : Nat) : (digitChar n).isDigit = true := by
  unfold digitChar
  split <;> decide

theorem pad2_eq (n : Nat) : pad2 n = [digitChar (n / 10 % 10), digitChar (n % 10)] := rfl

theorem formatFloat2_twoDecimal (q : ℚ) : twoDecimalFixed (formatFloat2 q) = true := by
  unfold formatFloat2 twoDecimalFixed
  simp only [pad2_eq]
  simp [digitChar_isDigit]

instance exceptDecEq {α β : Type} [DecidableEq α] [DecidableEq β] :
    DecidableEq (Except α β)
  | .error x, .error y =>
    if h : x = y then .isTrue (by rw [h]) else .isFalse (fun hc => h (by cases hc; rfl))
  | .ok x, .ok y =>
    if h : x = y then .isTrue (by rw [h]) else .isFalse (fun hc => h (by cases hc; rfl))
  | .error _, .ok _ => .isFalse (fun hc => by cases hc)
  | .ok _, .error _ => .isFalse (fun hc => by cases hc)

theorem withCustomSeparators_snd (g : EDIFACTOrderGenerator) (t e c d r : Char) :
    (withCustomSeparators g t e c d r).2 =
      (if ([t, e, c, r] : List Char).dedup.length = 4 then none
       else some GenErr.invalidSeparator) := rfl

/-- C1.  The escaping round-trip of §8 fails on the code: `EDISegment.String`
escapes the element separator and terminator first and the release character
last, so the release characters introduced by the first two passes are
doubled.  For the element "a+b" (which contains the element separator) the
serialized segment is "FTX+a??+b'", and the release-character-aware tokenizer
re-splits it into the elements "a?" and "b" rather than reproducing "a+b". -/
theorem escape_roundtrip_fails :
    ('+' ∈ "a+b".data) ∧
    escapeElem '+' '\'' '?' "a+b".data = "a??+b".data ∧
    segString { tag := "FTX".data, elements := ["a+b".data] } '+' '\'' '?' =
      .ok "FTX+a??+b'".data ∧
    (tokenizeWire '+' '\'' '?' "FTX+a??+b'".data).drop 1 = ["a?".data, "b".data] ∧
    ["a?".data, "b".data] ≠ ["a+b".data] := by
  decide

/-- C2.  For every separator configuration and every order on which
`Generate` succeeds, the written output has the message header UNH at
index 1, the message trailer UNT in the next-to-last position, and the UNT
segment's first element is the decimal rendering of `length - 3`, which is
exactly the number of segments emitted from UNH (inclusive, at index 1) up
to but not including UNT (at index `length - 2`). -/
theorem unt_count_matches_emitted (g : EDIFACTOrderGenerator) (o : EDIOrder)
    (h : (generate g false o).err = none) : SuccessShape (generate g false o) :=
  (generate_shape g o).1 h

theorem unt_count_matches_emitted_witness :
    (generate defaultGenerator false order0).err = none ∧
      SuccessShape (generate defaultGenerator false order0) :=
  ⟨by decide, unt_count_matches_emitted defaultGenerator order0 (by decide)⟩

/-- C3 (amended).  Pre-assembly failures (cancellation at entry, validation)
produce an error and no output at all; any later error aborts assembly with
an error and the output never contains an interchange trailer (UNZ), so no
complete interchange is ever produced — but segments serialized before the
failure point have already been written to the output (the assembly streams;
all-or-nothing holds only at the caller, which discards the buffer). -/
theorem generate_error_streams (g : EDIFACTOrderGenerator) (o : EDIOrder) :
    ((generate g true o).written = [] ∧
      (generate g true o).err = some .contextCancelled) ∧
    ((o.validate).isSome →
      (generate g false o).written = [] ∧ (generate g false o).err.isSome) ∧
    ((generate g false o).err.isSome →
      ∀ p ∈ (generate g false o).written, p.1.tag ≠ "UNZ".data) := by
  refine ⟨?_, fun h => generate_validate_err g o h, (generate_shape g o).2⟩
  constructor <;> simp [generate, initSt]

theorem generate_error_streams_witness :
    ((badValidationOrder.validate).isSome ∧
      (generate defaultGenerator false badValidationOrder).written = []) ∧
    ((generate defaultGenerator false longNameOrder).err.isSome ∧
      ∀ p ∈ (generate defaultGenerator false longNameOrder).written, p.1.tag ≠ "UNZ".data) :=
  ⟨⟨by decide,
    ((generate_error_streams defaultGenerator badValidationOrder).2.1 (by decide)).1⟩,
   ⟨by decide,
    (generate_error_streams defaultGenerator longNameOrder).2.2 (by decide)⟩⟩

/-- C3, counterexample to the claim as stated.  On an otherwise-valid order
whose buyer NAD segment is too long, `Generate` returns `ErrSegmentTooLong`,
yet six segments (UNB, UNH, BGM, two DTM, CUX) have already reached the
output: an error does not mean that no segment text was emitted. -/
theorem generate_error_partial_output :
    (generate defaultGenerator false longNameOrder).err = some .segmentTooLong ∧
    (generate defaultGenerator false longNameOrder).written.length = 6 := by
  decide

/-- C4.  Whenever the declared `TotalLines` differs from the number of items,
validation fails (the total-line check is reached only when everything else
passed, and it then fails) and `Generate` emits nothing and returns an
error.  The claim's "otherwise valid" hypothesis is not even needed. -/
theorem totalLines_mismatch_rejected (g : EDIFACTOrderGenerator) (o : EDIOrder)
    (h : o.totalLines ≠ (o.items.length : Int)) :
    (o.validate).isSome ∧ (generate g false o).written = [] ∧
      (generate g false o).err.isSome := by
  have hv : (o.validate).isSome := by
    cases hv : o.validate with
    | none => exact absurd (validate_none_facts o hv).2.2.2 h
    | some e => rfl
  exact ⟨hv, generate_validate_err g o hv⟩

theorem totalLines_mismatch_rejected_witness :
    orderMismatch.totalLines ≠ (orderMismatch.items.length : Int) ∧
    (orderMismatch.validate).isSome ∧
    (generate defaultGenerator false orderMismatch).written = [] :=
  ⟨by decide,
   (totalLines_mismatch_rejected defaultGenerator orderMismatch (by decide)).1,
   (totalLines_mismatch_rejected defaultGenerator orderMismatch (by decide)).2.1⟩

/-- C5 (amended).  Validation never inspects the invoice address (replacing
it does not change the result of `Validate`); when validation succeeds the
buyer and seller addresses are individually valid and the delivery address is
individually valid whenever its name is non-empty; and when the delivery
name is empty the rest of the delivery address is not inspected. -/
theorem validation_address_coverage (o : EDIOrder) (inv : Address) :
    (({ o with invoice := inv } : EDIOrder).validate = o.validate) ∧
    (o.validate = none →
      o.buyer.validate = none ∧ o.seller.validate = none ∧
        (o.delivery.name ≠ [] → o.delivery.validate = none)) ∧
    (∀ d d' : Address, d.name = [] → d'.name = [] →
      ({ o with delivery := d } : EDIOrder).validate =
        ({ o with delivery := d' } : EDIOrder).validate) := by
  refine ⟨rfl, fun h => ?_, fun d d' hd hd' => ?_⟩
  · obtain ⟨hb, hs, hdel, _⟩ := validate_none_facts o h
    refine ⟨hb, hs, fun hname => ?_⟩
    rw [if_neg hname] at hdel
    exact hdel
  · show EDIOrder.validate _ = EDIOrder.validate _
    unfold EDIOrder.validate
    simp [hd, hd']

theorem validation_address_coverage_witness :
    (order0.buyer.validate = none ∧ order0.seller.validate = none ∧
      (order0.delivery.name ≠ [] → order0.delivery.validate = none)) ∧
    ({ order0 with delivery := { name := [], lines := ["x".data], id := [], idType := [] } } :
        EDIOrder).validate =
      ({ order0 with delivery := { name := [], lines := [], id := [], idType := [] } } :
        EDIOrder).validate :=
  ⟨(validation_address_coverage order0 order0.invoice).2.1 (by decide),
   (validation_address_coverage order0 order0.invoice).2.2
     { name := [], lines := ["x".data], id := [], idType := [] }
     { name := [], lines := [], id := [], idType := [] } rfl rfl⟩

/-- C5, counterexample to the claim as stated.  An order whose invoice
address has a non-empty name but no address lines (so the invoice address
itself fails `Address.Validate`) still passes `EDIOrder.Validate`: the
invoice address is never validated, although the claim says it is checked
whenever its name is non-empty. -/
theorem invoice_never_validated :
    invoiceOrder.validate = none ∧
    invoiceOrder.invoice.name ≠ [] ∧
    (invoiceOrder.invoice.validate).isSome := by
  decide

/-- C6.  `EDISegment.String` fails with `SegmentTooLong` exactly when the
full wire text (tag, separators, escaped elements and terminator) is
strictly longer than the 1000-character `MaxSegmentLength`, returning no
output in that case; at or below the limit it returns the wire text. -/
theorem segment_length_limit (s : EDISegment) (sep term rel : Char) :
    (MaxSegmentLength < (wireText s sep term rel).length →
      segString s sep term rel = .error .segmentTooLong) ∧
    ((wireText s sep term rel).length ≤ MaxSegmentLength →
      segString s sep term rel = .ok (wireText s sep term rel)) := by
  constructor
  · intro h
    simp [segString, h]
  · intro h
    simp [segString, show ¬ MaxSegmentLength < (wireText s sep term rel).length from by omega]

theorem segment_length_limit_witness :
    (MaxSegmentLength < (wireText bigSeg '+' '\'' '?').length ∧
      segString bigSeg '+' '\'' '?' = .error .segmentTooLong) ∧
    ((wireText { tag := "BGM".data, elements := ["220".data] } '+' '\'' '?').length ≤
        MaxSegmentLength ∧
      segString { tag := "BGM".data, elements := ["220".data] } '+' '\'' '?' =
        .ok (wireText { tag := "BGM".data, elements := ["220".data] } '+' '\'' '?')) :=
  ⟨⟨by decide, (segment_length_limit bigSeg '+' '\'' '?').1 (by decide)⟩,
   ⟨by decide, (segment_length_limit { tag := "BGM".data, elements := ["220".data] }
      '+' '\'' '?').2 (by decide)⟩⟩

/-- C7.  Reconfiguration succeeds exactly when the segment terminator,
element separator, component separator and release character are pairwise
distinct (the decimal mark is not part of the check); any failure is the
`InvalidSeparator` error; and construction with the default characters
succeeds before any message is processed. -/
theorem separator_distinctness (g : EDIFACTOrderGenerator) (t e c d r : Char) :
    ((withCustomSeparators g t e c d r).2 = none ↔
      (t ≠ e ∧ t ≠ c ∧ t ≠ r ∧ e ≠ c ∧ e ≠ r ∧ c ≠ r)) ∧
    ((withCustomSeparators g t e c d r).2 = none ∨
      (withCustomSeparators g t e c d r).2 = some .invalidSeparator) ∧
    newEDIFACTOrderGenerator = .ok defaultGenerator := by
  refine ⟨?_, ?_, rfl⟩
  · rw [withCustomSeparators_snd]
    constructor
    · intro h
      by_cases hd : ([t, e, c, r] : List Char).dedup.length = 4
      · exact (dedup4 t e c r).mp hd
      · rw [if_neg hd] at h
        exact Option.noConfusion h
    · intro h
      rw [if_pos ((dedup4 t e c r).mpr h)]
  · rw [withCustomSeparators_snd]
    split
    · exact Or.inl rfl
    · exact Or.inr rfl

theorem separator_distinctness_witness :
    (withCustomSeparators defaultGenerator ';' '+' ':' '.' '?').2 = none :=
  (separator_distinctness defaultGenerator ';' '+' ':' '.' '?').1.mpr
    (by decide)

/-- C8.  On the sample order, the plain variant emits exactly one message
(one UNH and one UNT), yet its `createUNZ` initializes the message count at
one and then increments it for the UNH it finds, so the emitted UNZ carries
"2", not the message count 1 the claim (and the spec) require.  The
builder-based variant hard-codes `messageCount := 1` and emits "1". -/
theorem unz_message_count_bug :
    ((v2GenerateSegments defaultGenerator order0).map (fun s => s.tag)).count "UNH".data = 1 ∧
    ((v2GenerateSegments defaultGenerator order0).map (fun s => s.tag)).count "UNT".data = 1 ∧
    (v2GenerateSegments defaultGenerator order0).getLast? =
      some { tag := "UNZ".data, elements := ["2".data, "12345".data] } ∧
    ((generate defaultGenerator false order0).written.map (fun p => p.1)).getLast? =
      some { tag := "UNZ".data, elements := ["1".data, "12345".data] } := by
  decide

/-- C9.  The builder-based variant formats quantities, prices and amounts
with `strconv.FormatFloat(x, 'f', 2, 64)`, whose embedding always yields
fixed-point text with exactly two decimal places; the plain variant formats
with `%v`, so an integral quantity of 10 is emitted as "21:10:PCE" and a
price of 25.5 as "AAA:25.5" — not two-decimal fixed-point text, contradicting
the claim for the cited `createQTY`. -/
theorem qty_formatting_bug :
    (∀ q : ℚ, twoDecimalFixed (formatFloat2 q) = true) ∧
    (∀ it : EDIOrderItem, buildQTY false it =
      .ok { tag := "QTY".data
            elements := ["21:".data ++ formatFloat2 it.quantity ++ [':'] ++
              (if it.unitOfMeasure = [] then "PCE".data else it.unitOfMeasure)] }) ∧
    createQTY item10 = { tag := "QTY".data, elements := ["21:10:PCE".data] } ∧
    twoDecimalFixed "10".data = false ∧
    createPRI item10 = { tag := "PRI".data, elements := ["AAA:25.5".data] } ∧
    twoDecimalFixed "25.5".data = false := by
  exact ⟨formatFloat2_twoDecimal, fun it => rfl, by decide, by decide, by decide, by decide⟩

/-- C10.  When the distinctness check rejects the characters passed to
`WithCustomSeparators`, the call returns the `InvalidSeparator` error, but
the receiver's five separator fields have already been overwritten with the
rejected arguments — the previous configuration is not restored. -/
theorem custom_separators_overwrite (g : EDIFACTOrderGenerator) (t e c d r : Char)
    (h : ¬ (t ≠ e ∧ t ≠ c ∧ t ≠ r ∧ e ≠ c ∧ e ≠ r ∧ c ≠ r)) :
    (withCustomSeparators g t e c d r).2 = some .invalidSeparator ∧
    (withCustomSeparators g t e c d r).1 =
      { segmentTerminator := t, elementSeparator := e, componentSeparator := c,
        decimalMark := d, releaseCharacter := r } := by
  refine ⟨?_, rfl⟩
  rw [withCustomSeparators_snd, if_neg]
  intro hd
  exact h ((dedup4 t e c r).mp hd)

theorem custom_separators_overwrite_witness :
    (¬ (('+' : Char) ≠ '+' ∧ ('+' : Char) ≠ '+' ∧ ('+' : Char) ≠ '+' ∧
        ('+' : Char) ≠ '+' ∧ ('+' : Char) ≠ '+' ∧ ('+' : Char) ≠ '+')) ∧
    (withCustomSeparators defaultGenerator '+' '+' '+' '.' '+').2 =
      some .invalidSeparator ∧
    (withCustomSeparators defaultGenerator '+' '+' '+' '.' '+').1.segmentTerminator = '+' :=
  ⟨by decide,
   (custom_separators_overwrite defaultGenerator '+' '+' '+' '.' '+' (by decide)).1,
   by rw [(custom_separators_overwrite defaultGenerator '+' '+' '+' '.' '+' (by decide)).2]⟩
